import Mathlib

/-!
# Verification of the Polars.NET `native_shim` FFI layer

A shallow embedding, in Lean 4, of the Rust code under `native_shim/src`
(`datatypes.rs`, `series.rs`, `io.rs`, `lazy.rs`, `selectors.rs`,
`utils.rs`), together with theorems settling the specification claims
about it.  Pointers and out-parameters of the C ABI are modelled with
`Option`/`Except`; machine integers are `Int` (overflow does not occur on
the code paths modelled here); external callbacks are function
parameters.
-/

namespace PolarsNet

/-! ## Data model: `DataType` (`datatypes.rs`)

`TimeUnit`, `UnknownKind` and `DataType` mirror the polars types the shim
matches on.  `DataType` carries every variant named in the shim's
discriminant table, plus a few polars variants (`Int128`, `Array`,
`BinaryOffset`, `Object`) that the table does *not* name, so that the
`_ => Unknown` fallback of `map_dtype_to_kind` is observable.
`Categorical(Categories, Mapping)` holds two runtime handles produced by
`Categories::random`; they are modelled by an opaque numeric identifier. -/

inductive TimeUnit where
  | Nanoseconds
  | Microseconds
  | Milliseconds
  deriving DecidableEq, Repr

/-- Polars `UnknownKind`; `Default::default()` is `Any`. -/
inductive UnknownKind where
  | Any
  | Ufunc
  | IntKind (v : Int)
  | FloatKind
  | Str
  deriving DecidableEq, Repr

def UnknownKind.default : UnknownKind := UnknownKind.Any

inductive DataType where
  | Unknown (k : UnknownKind)
  | Boolean
  | Int8
  | Int16
  | Int32
  | Int64
  | UInt8
  | UInt16
  | UInt32
  | UInt64
  | Float32
  | Float64
  | String
  | Date
  | Datetime (unit : TimeUnit) (tz : Option String)
  | Time
  | Duration (unit : TimeUnit)
  | Binary
  | Null
  | Struct (fields : List (String × DataType))
  | List (inner : DataType)
  | Categorical (categories : Nat) (mapping : Nat)
  | Decimal (precision : Option Nat) (scale : Option Nat)
  | Int128
  | ArrayFixed (inner : DataType) (size : Nat)
  | BinaryOffset
  | Object

/-- The discriminant enum `PlDataTypeKind` generated by
`define_pl_datatype_kind!` in `datatypes.rs`. -/
inductive PlDataTypeKind where
  | Unknown
  | Boolean
  | Int8
  | Int16
  | Int32
  | Int64
  | UInt8
  | UInt16
  | UInt32
  | UInt64
  | Float32
  | Float64
  | String
  | Date
  | Datetime
  | Time
  | Duration
  | Binary
  | Null
  | Struct
  | List
  | Categorical
  | Decimal
  deriving DecidableEq, Repr

namespace PlDataTypeKind

/-- The `#[repr(i32)]` discriminant values of `PlDataTypeKind`. -/
def toCode : PlDataTypeKind → Int
  | Unknown => 0
  | Boolean => 1
  | Int8 => 2
  | Int16 => 3
  | Int32 => 4
  | Int64 => 5
  | UInt8 => 6
  | UInt16 => 7
  | UInt32 => 8
  | UInt64 => 9
  | Float32 => 10
  | Float64 => 11
  | String => 12
  | Date => 13
  | Datetime => 14
  | Time => 15
  | Duration => 16
  | Binary => 17
  | Null => 18
  | Struct => 19
  | List => 20
  | Categorical => 21
  | Decimal => 22

/-- `PlDataTypeKind::from_i32`: the inverse lookup of the discriminant. -/
def from_i32 (code : Int) : Option PlDataTypeKind :=
  if code = 0 then some Unknown
  else if code = 1 then some Boolean
  else if code = 2 then some Int8
  else if code = 3 then some Int16
  else if code = 4 then some Int32
  else if code = 5 then some Int64
  else if code = 6 then some UInt8
  else if code = 7 then some UInt16
  else if code = 8 then some UInt32
  else if code = 9 then some UInt64
  else if code = 10 then some Float32
  else if code = 11 then some Float64
  else if code = 12 then some String
  else if code = 13 then some Date
  else if code = 14 then some Datetime
  else if code = 15 then some Time
  else if code = 16 then some Duration
  else if code = 17 then some Binary
  else if code = 18 then some Null
  else if code = 19 then some Struct
  else if code = 20 then some List
  else if code = 21 then some Categorical
  else if code = 22 then some Decimal
  else none

/-- `PlDataTypeKind::to_default_datatype`: the constructor column of the
macro table.  `Categorical` constructs two fresh `Categories::random`
handles; the model gives fresh handles the identifiers `0` and `0`. -/
def to_default_datatype : PlDataTypeKind → DataType
  | Unknown => DataType.Unknown UnknownKind.default
  | Boolean => DataType.Boolean
  | Int8 => DataType.Int8
  | Int16 => DataType.Int16
  | Int32 => DataType.Int32
  | Int64 => DataType.Int64
  | UInt8 => DataType.UInt8
  | UInt16 => DataType.UInt16
  | UInt32 => DataType.UInt32
  | UInt64 => DataType.UInt64
  | Float32 => DataType.Float32
  | Float64 => DataType.Float64
  | String => DataType.String
  | Date => DataType.Date
  | Datetime => DataType.Datetime TimeUnit.Microseconds none
  | Time => DataType.Time
  | Duration => DataType.Duration TimeUnit.Microseconds
  | Binary => DataType.Binary
  | Null => DataType.Null
  | Struct => DataType.Struct []
  | List => DataType.List DataType.Null
  | Categorical => DataType.Categorical 0 0
  | Decimal => DataType.Decimal none none

end PlDataTypeKind

/-- `map_dtype_to_kind`: the match-pattern column of the macro table,
with the generated `_ => PlDataTypeKind::Unknown` fallback. -/
def map_dtype_to_kind : DataType → PlDataTypeKind
  | DataType.Unknown _ => PlDataTypeKind.Unknown
  | DataType.Boolean => PlDataTypeKind.Boolean
  | DataType.Int8 => PlDataTypeKind.Int8
  | DataType.Int16 => PlDataTypeKind.Int16
  | DataType.Int32 => PlDataTypeKind.Int32
  | DataType.Int64 => PlDataTypeKind.Int64
  | DataType.UInt8 => PlDataTypeKind.UInt8
  | DataType.UInt16 => PlDataTypeKind.UInt16
  | DataType.UInt32 => PlDataTypeKind.UInt32
  | DataType.UInt64 => PlDataTypeKind.UInt64
  | DataType.Float32 => PlDataTypeKind.Float32
  | DataType.Float64 => PlDataTypeKind.Float64
  | DataType.String => PlDataTypeKind.String
  | DataType.Date => PlDataTypeKind.Date
  | DataType.Datetime _ _ => PlDataTypeKind.Datetime
  | DataType.Time => PlDataTypeKind.Time
  | DataType.Duration _ => PlDataTypeKind.Duration
  | DataType.Binary => PlDataTypeKind.Binary
  | DataType.Null => PlDataTypeKind.Null
  | DataType.Struct _ => PlDataTypeKind.Struct
  | DataType.List _ => PlDataTypeKind.List
  | DataType.Categorical _ _ => PlDataTypeKind.Categorical
  | DataType.Decimal _ _ => PlDataTypeKind.Decimal
  | _ => PlDataTypeKind.Unknown

/-- `pl_datatype_new_primitive`: a valid discriminant yields the kind's
default `DataType`; any other code yields `Unknown(Default::default())`
rather than an error. -/
def pl_datatype_new_primitive (code : Int) : DataType :=
  match PlDataTypeKind.from_i32 code with
  | some kind => kind.to_default_datatype
  | none => DataType.Unknown UnknownKind.default

/-- `pl_datatype_get_kind` on a non-null pointer: the discriminant of the
pointed-to `DataType`. -/
def pl_datatype_get_kind (dtype : DataType) : Int :=
  (map_dtype_to_kind dtype).toCode

/-! ## Arrow arrays and `upgrade_to_large_list` (`series.rs`)

The Arrow types the widening pass inspects: `List` (32-bit offsets),
`LargeList` (64-bit offsets) and `Struct`; every other Arrow type is an
opaque leaf identified by a numeric tag.  An Arrow field is a (name,
nullable, child type) triple; the declared inner field type of a list
array always equals the child array's own type (the Arrow invariant the
code relies on when it reads `inner_field` from `array.dtype()`), so the
model computes `dtype` from the children. -/

mutual

inductive ArrowDataType where
  | other (tag : Nat)
  | list (fieldName : String) (nullable : Bool) (inner : ArrowDataType)
  | largeList (fieldName : String) (nullable : Bool) (inner : ArrowDataType)
  | struct (fields : ArrowDTFields)

inductive ArrowDTFields where
  | nil
  | cons (name : String) (nullable : Bool) (dt : ArrowDataType) (rest : ArrowDTFields)

end

mutual

/-- An Arrow array.  `other` covers all non-container types (its payload
is irrelevant to the widening pass); a list array holds its offsets
buffer, child values and validity bitmap; a struct array holds its
explicit length and named children. -/
inductive ArrowArray where
  | other (tag : Nat) (len : Nat) (validity : Option (List Bool))
  | list32 (fieldName : String) (nullable : Bool) (offsets : List Int)
      (values : ArrowArray) (validity : Option (List Bool))
  | list64 (fieldName : String) (nullable : Bool) (offsets : List Int)
      (values : ArrowArray) (validity : Option (List Bool))
  | struct (len : Nat) (children : ArrowChildren) (validity : Option (List Bool))

inductive ArrowChildren where
  | nil
  | cons (name : String) (nullable : Bool) (child : ArrowArray) (rest : ArrowChildren)

end

mutual

/-- `Array::dtype()`. -/
def ArrowArray.dtype : ArrowArray → ArrowDataType
  | .other tag _ _ => .other tag
  | .list32 n b _ v _ => .list n b v.dtype
  | .list64 n b _ v _ => .largeList n b v.dtype
  | .struct _ cs _ => .struct cs.dtypes

def ArrowChildren.dtypes : ArrowChildren → ArrowDTFields
  | .nil => .nil
  | .cons n b c rest => .cons n b c.dtype rest.dtypes

end

/-- `Array::len()`: a list array's length is one less than its offsets
buffer's length; a struct array stores its length. -/
def ArrowArray.length : ArrowArray → Nat
  | .other _ len _ => len
  | .list32 _ _ offsets _ _ => offsets.length - 1
  | .list64 _ _ offsets _ _ => offsets.length - 1
  | .struct len _ _ => len

/-- `Array::validity()`. -/
def ArrowArray.validity : ArrowArray → Option (List Bool)
  | .other _ _ v => v
  | .list32 _ _ _ _ v => v
  | .list64 _ _ _ _ v => v
  | .struct _ _ v => v

mutual

/-- `PartialEq` on Arrow data types (the `==` the source applies to
`dtype()` results). -/
def dtEq : ArrowDataType → ArrowDataType → Bool
  | .other t1, .other t2 => t1 == t2
  | .list n1 b1 i1, .list n2 b2 i2 => n1 == n2 && b1 == b2 && dtEq i1 i2
  | .largeList n1 b1 i1, .largeList n2 b2 i2 => n1 == n2 && b1 == b2 && dtEq i1 i2
  | .struct f1, .struct f2 => dtFieldsEq f1 f2
  | _, _ => false

def dtFieldsEq : ArrowDTFields → ArrowDTFields → Bool
  | .nil, .nil => true
  | .cons n1 b1 d1 r1, .cons n2 b2 d2 r2 =>
      n1 == n2 && b1 == b2 && dtEq d1 d2 && dtFieldsEq r1 r2
  | _, _ => false

end

/-- The Rust `x as i64` cast applied to each 32-bit offset: sign
extension preserves the integer value. -/
def widen_i32_to_i64 (x : Int) : Int := x

/-- The `changed` scan of the struct case: zip the old children with the
upgraded ones and compare data types (`old.dtype() != new.dtype()`). -/
def childrenChanged : ArrowChildren → ArrowChildren → Bool
  | .cons _ _ c1 r1, .cons _ _ c2 r2 =>
      !dtEq c1.dtype c2.dtype || childrenChanged r1 r2
  | _, _ => false

mutual

/-- `upgrade_to_large_list` (`series.rs:243`): widen every 32-bit-offset
list to a 64-bit-offset large list, recursing through large-list values
and struct children, returning the original array when nothing below
changed. -/
def upgrade_to_large_list : ArrowArray → ArrowArray
  | .other tag len validity => .other tag len validity
  | .list32 n b offsets values validity =>
      let new_values := upgrade_to_large_list values
      .list64 n b (offsets.map widen_i32_to_i64) new_values validity
  | .list64 n b offsets values validity =>
      let new_values := upgrade_to_large_list values
      if dtEq new_values.dtype values.dtype then
        .list64 n b offsets values validity
      else
        .list64 n b offsets new_values validity
  | .struct len children validity =>
      let new_children := upgradeChildren children
      if childrenChanged children new_children then
        .struct len new_children validity
      else
        .struct len children validity

def upgradeChildren : ArrowChildren → ArrowChildren
  | .nil => .nil
  | .cons n b c rest => .cons n b (upgrade_to_large_list c) (upgradeChildren rest)

end

mutual

/-- Modelled from the spec: the widening step "applied recursively
through nested container types", with no fixpoint short-circuit — every
32-bit list becomes a large list with the same (widened) offsets and
recursively widened values, and everything else is rebuilt around its
recursively widened children. -/
def widenSpec : ArrowArray → ArrowArray
  | .other tag len validity => .other tag len validity
  | .list32 n b offsets values validity =>
      .list64 n b (offsets.map widen_i32_to_i64) (widenSpec values) validity
  | .list64 n b offsets values validity =>
      .list64 n b offsets (widenSpec values) validity
  | .struct len children validity =>
      .struct len (widenSpecChildren children) validity

def widenSpecChildren : ArrowChildren → ArrowChildren
  | .nil => .nil
  | .cons n b c rest => .cons n b (widenSpec c) (widenSpecChildren rest)

end

mutual

/-- No 32-bit-offset list array occurs anywhere in the array. -/
def noSmallList : ArrowArray → Bool
  | .other .. => true
  | .list32 .. => false
  | .list64 _ _ _ v _ => noSmallList v
  | .struct _ cs _ => noSmallListChildren cs

def noSmallListChildren : ArrowChildren → Bool
  | .nil => true
  | .cons _ _ c rest => noSmallList c && noSmallListChildren rest

end

/-! ## Errors (`error.rs` surface used by the shim) -/

inductive PolarsError where
  | ComputeError (msg : String)
  | ShapeError (msg : String)
  | SchemaError (msg : String)
  deriving DecidableEq, Repr

/-! ## Series scalar access (`series.rs`)

A Series is modelled by the sequence of `AnyValue`s that `Series::get`
yields at each in-range index (a physically null element yields
`AnyValue::Null`).  The `bool` status plus out-parameter convention of
the accessors is modelled by `Option`: `none` is `return false` with the
out-parameter untouched, `some v` is `true` with `v` written.  `f32`/
`f64` payloads are carried as opaque bit patterns (`Int`); the accessors
only copy them. -/

inductive AnyValue where
  | Null
  | Boolean (b : Bool)
  | StringValue (s : String)
  | Int8 (v : Int)
  | Int16 (v : Int)
  | Int32 (v : Int)
  | Int64 (v : Int)
  | UInt8 (v : Int)
  | UInt16 (v : Int)
  | UInt32 (v : Int)
  | UInt64 (v : Int)
  | Float32 (bits : Int)
  | Float64 (bits : Int)
  | Date (v : Int)
  | Time (v : Int)
  | Datetime (v : Int) (unit : TimeUnit) (tz : Option String)
  | Duration (v : Int) (unit : TimeUnit)
  | Decimal (v : Int) (scale : Nat)
  | OtherValue (tag : Nat)
  deriving DecidableEq, Repr

abbrev Series := List AnyValue

/-- `Series::get(idx)`: in range yields the element, out of range is an
error (the accessors below pre-check the bound, so they never see the
error case). -/
def seriesGet (s : Series) (idx : Nat) : Except PolarsError AnyValue :=
  match s[idx]? with
  | some v => Except.ok v
  | none => Except.error (PolarsError.ComputeError "index out of bounds")

/-- The Rust `v as i64` cast of a `u64` value: wraps modulo `2^64`. -/
def u64_as_i64 (v : Int) : Int := (v + 2 ^ 63) % 2 ^ 64 - 2 ^ 63

/-- The Rust `v as f64` widening of an `f32`: exact, modelled on the
opaque payload as the identity. -/
def f32_as_f64 (bits : Int) : Int := bits

def pl_series_get_i64 (s : Series) (idx : Nat) : Option Int :=
  if s.length ≤ idx then none
  else match seriesGet s idx with
    | .ok (.Int64 v) => some v
    | .ok (.Int32 v) => some v
    | .ok (.Int16 v) => some v
    | .ok (.Int8 v) => some v
    | .ok (.UInt64 v) => some (u64_as_i64 v)
    | .ok (.UInt32 v) => some v
    | _ => none

def pl_series_get_f64 (s : Series) (idx : Nat) : Option Int :=
  if s.length ≤ idx then none
  else match seriesGet s idx with
    | .ok (.Float64 v) => some v
    | .ok (.Float32 v) => some (f32_as_f64 v)
    | _ => none

def pl_series_get_bool (s : Series) (idx : Nat) : Option Bool :=
  if s.length ≤ idx then none
  else match seriesGet s idx with
    | .ok (.Boolean v) => some v
    | _ => none

/-- `pl_series_get_str` returns a C string pointer; the null pointer
(failure) is `none`. -/
def pl_series_get_str (s : Series) (idx : Nat) : Option String :=
  if s.length ≤ idx then none
  else match seriesGet s idx with
    | .ok (.StringValue v) => some v
    | _ => none

def pl_series_get_decimal (s : Series) (idx : Nat) : Option (Int × Nat) :=
  if s.length ≤ idx then none
  else match seriesGet s idx with
    | .ok (.Decimal v scale) => some (v, scale)
    | _ => none

def pl_series_get_date (s : Series) (idx : Nat) : Option Int :=
  if s.length ≤ idx then none
  else match seriesGet s idx with
    | .ok (.Date v) => some v
    | _ => none

def pl_series_get_time (s : Series) (idx : Nat) : Option Int :=
  if s.length ≤ idx then none
  else match seriesGet s idx with
    | .ok (.Time v) => some v
    | _ => none

def pl_series_get_datetime (s : Series) (idx : Nat) : Option Int :=
  if s.length ≤ idx then none
  else match seriesGet s idx with
    | .ok (.Datetime v _ _) => some v
    | _ => none

def pl_series_get_duration (s : Series) (idx : Nat) : Option Int :=
  if s.length ≤ idx then none
  else match seriesGet s idx with
    | .ok (.Duration v _) => some v
    | _ => none

def AnyValue.isNullValue : AnyValue → Bool
  | .Null => true
  | _ => false

def pl_series_is_null_at (s : Series) (idx : Nat) : Bool :=
  if s.length ≤ idx then false
  else match seriesGet s idx with
    | .ok .Null => true
    | _ => false

/-- `pl_series_null_count`: `Series::null_count()`, the number of
physically null elements. -/
def pl_series_null_count (s : Series) : Nat :=
  s.countP AnyValue.isNullValue

/-! ## DataFrames and record-batch import (`io.rs`)

A column is the pair `Series::from_arrow(name, array)` builds (the FFI
importing path assumes the conversion succeeds for importable arrays).
`DataFrame::new` validates unique column names and equal heights. -/

abbrev Column := String × ArrowArray

def columnNamesNodup : List Column → Bool
  | [] => true
  | c :: rest => !(rest.map Prod.fst).contains c.1 && columnNamesNodup rest

def columnHeightsOk : List Column → Bool
  | [] => true
  | c :: rest => rest.all (fun d => d.2.length == c.2.length)

/-- `DataFrame::new(columns)`. -/
def DataFrame.new (cols : List Column) : Except PolarsError (List Column) :=
  if columnNamesNodup cols && columnHeightsOk cols then Except.ok cols
  else Except.error (PolarsError.ShapeError "could not create a new DataFrame")

def DataFrame.empty : List Column := []

/-- The columns built in the struct-root branch of
`pl_dataframe_from_arrow_record_batch`: one per struct field, zipping
`struct_arr.values()` with `struct_arr.fields()`. -/
def structColumns : ArrowChildren → List Column
  | .nil => []
  | .cons n _ c rest => (n, c) :: structColumns rest

/-- `pl_dataframe_from_arrow_record_batch` (`io.rs:227`) after the FFI
importing step: a struct-rooted array becomes one column per field; anything
else becomes a single column named after the imported root field. -/
def pl_dataframe_from_arrow_record_batch (rootFieldName : String) (a : ArrowArray) :
    Except PolarsError (List Column) :=
  match a with
  | .struct _ children _ => DataFrame.new (structColumns children)
  | _ => DataFrame.new [(rootFieldName, a)]

/-! ## The batch sink (`io.rs`, `CSharpSinkUdf`)

The C# callback receives one exported Arrow chunk at a time and returns
an `i32` status plus (on failure) a message written into the error
buffer; it is modelled as a function from an opaque chunk to
`status × message`.  `call` feeds the frame's chunks to the callback in
order. -/

abbrev Chunk := Nat

/-- `CSharpSinkUdf::call`, instrumented: the first component is the list
of chunks actually delivered to the callback, in order; the second is
the returned `PolarsResult<DataFrame>`. -/
def sinkCall (callback : Chunk → Int × String) :
    List Chunk → List Chunk × Except PolarsError (List Column)
  | [] => ([], Except.ok DataFrame.empty)
  | c :: rest =>
      let r := callback c
      if r.1 ≠ 0 then
        ([c], Except.error (PolarsError.ComputeError ("C# Sink Failed: " ++ r.2)))
      else
        let next := sinkCall callback rest
        (c :: next.1, next.2)

/-! ## Expressions and selectors (`selectors.rs`)

`Selector` keeps the tree constructors the shim builds (`Arc` sharing is
dropped).  The resolution of a selector against a concrete schema is not
part of the shim's sources. -/

inductive Expr where
  | col (name : String)
  | lit (v : Int)
  | binaryOp (op : Nat) (l r : Expr)
  deriving DecidableEq, Repr

/-- `Expr::meta().root_names()`: the root column names of an expression. -/
def Expr.root_names : Expr → List String
  | .col n => [n]
  | .lit _ => []
  | .binaryOp _ l r => l.root_names ++ r.root_names

/-- `exprs_to_names` (`lazy.rs:356`). -/
def exprs_to_names (es : List Expr) : List String :=
  (es.map Expr.root_names).flatten

inductive Selector where
  | Wildcard
  | ByName (names : List String)
  | ByDType (kinds : List PlDataTypeKind)
  | Union (l r : Selector)
  | Intersect (l r : Selector)
  | Difference (l r : Selector)
  deriving DecidableEq, Repr

def pl_selector_and (left right : Selector) : Selector :=
  Selector.Intersect left right

def pl_selector_or (left right : Selector) : Selector :=
  Selector.Union left right

def pl_selector_not (s : Selector) : Selector :=
  Selector.Difference Selector.Wildcard s

/-- Modelled from the spec: selector resolution is not in the shim's
sources; per the spec, a selector resolves against the concrete schema
to the set of matching columns, with `Wildcard` matching everything,
`ByName`/`ByDType` matching by name/type, and the boolean combinators
acting as literal set union/intersection/difference. -/
def Selector.matchesCol : Selector → (String × DataType) → Bool
  | .Wildcard, _ => true
  | .ByName names, c => names.contains c.1
  | .ByDType kinds, c => kinds.contains (map_dtype_to_kind c.2)
  | .Union l r, c => l.matchesCol c || r.matchesCol c
  | .Intersect l r, c => l.matchesCol c && r.matchesCol c
  | .Difference l r, c => l.matchesCol c && !r.matchesCol c

/-- Modelled from the spec: the set of schema columns a selector
matches, in schema order. -/
def resolveSelector (s : Selector) (schema : List (String × DataType)) :
    List (String × DataType) :=
  schema.filter (fun c => s.matchesCol c)

/-! ## Lazy plans: concat, join, join-asof (`lazy.rs`, `utils.rs`) -/

inductive AsofStrategy where
  | Backward
  | Forward
  | Nearest
  deriving DecidableEq, Repr

/-- The scalar tolerance values `pl_lazy_join_asof` constructs:
`Scalar::new(DataType::Int64, AnyValue::Int64(v))` or
`Scalar::new(DataType::Float64, AnyValue::Float64(v))`.  The `f64`
payload of the float case is a floating-point value outside this
model; only the fact that a Float64 scalar was built is represented. -/
inductive Scalar where
  | int64 (v : Int)
  | float64
  deriving DecidableEq, Repr

structure AsOfOptions where
  strategy : AsofStrategy
  tolerance : Option Scalar
  tolerance_str : Option String
  left_by : Option (List String)
  right_by : Option (List String)
  allow_eq : Bool
  check_sortedness : Bool
  deriving DecidableEq, Repr

inductive JoinType where
  | Inner
  | Left
  | Full
  | Cross
  | Semi
  | Anti
  | AsOf (options : AsOfOptions)

/-- `JoinArgs::new(how)`: only the join type is relevant to the shim. -/
structure JoinArgs where
  how : JoinType

inductive LazyPlan where
  | source (id : Nat)
  | join (left right : LazyPlan) (left_on right_on : List Expr) (args : JoinArgs)
  | unionVertical (inputs : List LazyPlan) (rechunk parallel : Bool)
  | hconcat (inputs : List LazyPlan) (rechunk parallel : Bool)
  | unionDiagonal (inputs : List LazyPlan) (rechunk parallel : Bool)

/-- `map_jointype` (`utils.rs:99`). -/
def map_jointype (code : Int) : JoinType :=
  match code with
  | 0 => JoinType.Inner
  | 1 => JoinType.Left
  | 2 => JoinType.Full
  | 3 => JoinType.Cross
  | 4 => JoinType.Semi
  | 5 => JoinType.Anti
  | _ => JoinType.Inner

/-- `pl_lazy_join` (`lazy.rs:329`). -/
def pl_lazy_join (left right : LazyPlan) (left_on right_on : List Expr)
    (how_code : Int) : LazyPlan :=
  LazyPlan.join left right left_on right_on (JoinArgs.mk (map_jointype how_code))

/-- The C heap of live `LazyFrameContext` boxes, keyed by pointer. -/
abbrev PlanHeap := List (Nat × LazyPlan)

/-- The effect of the `Box::from_raw` loop of `pl_lazy_concat`: every
passed pointer is consumed (removed from the heap). -/
def heapRemoveAll (h : PlanHeap) (ptrs : List Nat) : PlanHeap :=
  h.filter (fun e => !ptrs.contains e.1)

/-- The value part of `pl_lazy_concat` after the `Box::from_raw` loop:
the empty-input check, then the strategy dispatch. -/
def lazyConcatResult (lfs : List LazyPlan) (how : Int)
    (rechunk parallel : Bool) : Except PolarsError LazyPlan :=
  if lfs.isEmpty then
    Except.error (PolarsError.ComputeError "Cannot concat empty list of LazyFrames")
  else
    match how with
    | 0 => Except.ok (LazyPlan.unionVertical lfs rechunk parallel)
    | 1 => Except.ok (LazyPlan.hconcat lfs rechunk parallel)
    | 2 => Except.ok (LazyPlan.unionDiagonal lfs rechunk parallel)
    | _ => Except.error (PolarsError.ComputeError "Invalid lazy concat strategy")

/-- `pl_lazy_concat` (`lazy.rs:277`): the input plans are consumed
first; then the empty-input check, then the strategy dispatch.  The
returned pair is (heap after the call, FFI result). -/
def pl_lazy_concat (h : PlanHeap) (ptrs : List Nat) (how : Int)
    (rechunk parallel : Bool) : PlanHeap × Except PolarsError LazyPlan :=
  let lfs := ptrs.filterMap (fun p => (h.find? (fun e => e.1 == p)).map Prod.snd)
  (heapRemoveAll h ptrs, lazyConcatResult lfs how rechunk parallel)

/-! ### Rust numeric string parsing (`str::parse` as used by
`pl_lazy_join_asof`) -/

/-- A nonempty all-ASCII-digit character list, and its value. -/
def parseDigits (cs : List Char) : Option Nat :=
  if cs ≠ [] ∧ cs.all Char.isDigit then
    some (cs.foldl (fun a c => a * 10 + (c.toNat - 48)) 0)
  else none

/-- Strip one optional leading `+`/`-`; `true` means negative. -/
def stripSign : List Char → Bool × List Char
  | '+' :: r => (false, r)
  | '-' :: r => (true, r)
  | r => (false, r)

/-- `str::parse::<i64>`: optional sign, one or more ASCII digits, and
the value must fit in `i64`. -/
def rustParseI64 (s : String) : Option Int :=
  let sr := stripSign s.toList
  match parseDigits sr.2 with
  | none => none
  | some n =>
      let v : Int := if sr.1 then -(n : Int) else (n : Int)
      if -(2 ^ 63) ≤ v ∧ v ≤ 2 ^ 63 - 1 then some v else none

/-- Split at the first `e`/`E` (the exponent marker of a float
literal). -/
def splitAtExp : List Char → List Char × Option (List Char)
  | [] => ([], none)
  | c :: r =>
      if c = 'e' ∨ c = 'E' then ([], some r)
      else
        let p := splitAtExp r
        (c :: p.1, p.2)

/-- Split at the first `.`. -/
def splitAtDot : List Char → List Char × Option (List Char)
  | [] => ([], none)
  | c :: r =>
      if c = '.' then ([], some r)
      else
        let p := splitAtDot r
        (c :: p.1, p.2)

def digitsNonempty (cs : List Char) : Bool :=
  !cs.isEmpty && cs.all Char.isDigit

/-- The mantissa grammar of `str::parse::<f64>`:
`Digit+ | Digit+ '.' Digit* | Digit* '.' Digit+`. -/
def f64MantissaOk (cs : List Char) : Bool :=
  match splitAtDot cs with
  | (a, none) => digitsNonempty a
  | (a, some b) =>
      a.all Char.isDigit && b.all Char.isDigit && !(a.isEmpty && b.isEmpty)

/-- Whether `str::parse::<f64>` accepts the string (its grammar:
optional sign, then case-insensitive `inf`/`infinity`/`nan` or a
mantissa with an optional `e`/`E` exponent).  The parsed value is a
float and is not modelled. -/
def rustParsesF64 (s : String) : Bool :=
  let body := (stripSign s.toList).2
  let lower := body.map Char.toLower
  if lower = "inf".toList ∨ lower = "infinity".toList ∨ lower = "nan".toList then
    true
  else
    match splitAtExp body with
    | (m, none) => f64MantissaOk m
    | (m, some e) => f64MantissaOk m && digitsNonempty (stripSign e).2

/-- The strategy match of `pl_lazy_join_asof`. -/
def asofStrategyOf (strategy_str : String) : AsofStrategy :=
  if strategy_str = "forward" then AsofStrategy.Forward
  else if strategy_str = "nearest" then AsofStrategy.Nearest
  else AsofStrategy.Backward

/-- The tolerance parsing chain of `pl_lazy_join_asof`: empty string
means no tolerance; an `i64` parse gives an Int64 scalar; an `f64` parse
gives a Float64 scalar; anything else passes through as a duration
string. -/
def asofToleranceOf (tol_str : String) : Option Scalar × Option String :=
  if tol_str = "" then (none, none)
  else
    match rustParseI64 tol_str with
    | some v => (some (Scalar.int64 v), none)
    | none =>
        if rustParsesF64 tol_str then (some Scalar.float64, none)
        else (none, some tol_str)

/-- The `AsOfOptions` record `pl_lazy_join_asof` constructs. -/
def asofOptionsOf (by_left by_right : List Expr)
    (strategy_arg tolerance_arg : Option String) : AsOfOptions :=
  let left_by := if by_left.isEmpty then none else some (exprs_to_names by_left)
  let right_by := if by_right.isEmpty then none else some (exprs_to_names by_right)
  let strategy := asofStrategyOf (strategy_arg.getD "backward")
  let tolPair := asofToleranceOf (tolerance_arg.getD "")
  { strategy := strategy
    tolerance := tolPair.1
    tolerance_str := tolPair.2
    left_by := left_by
    right_by := right_by
    allow_eq := true
    check_sortedness := true }

/-- `pl_lazy_join_asof` (`lazy.rs:368`): a null or UTF-8-invalid
strategy string defaults to `"backward"`; a null tolerance pointer reads
as `""`. -/
def pl_lazy_join_asof (left right : LazyPlan) (left_on right_on : Expr)
    (by_left by_right : List Expr)
    (strategy_arg tolerance_arg : Option String) : LazyPlan :=
  LazyPlan.join left right [left_on] [right_on]
    (JoinArgs.mk (JoinType.AsOf
      (asofOptionsOf by_left by_right strategy_arg tolerance_arg)))

/-! ## Auxiliary predicates used by the claim statements -/

/-- The non-parametric logical types: the constructors that carry no
parameters (`Boolean`, the fixed-width integers, the floats, `String`,
`Date`, `Time`, `Binary`, `Null`). -/
def isNonParametricType : DataType → Bool
  | .Boolean => true
  | .Int8 => true
  | .Int16 => true
  | .Int32 => true
  | .Int64 => true
  | .UInt8 => true
  | .UInt16 => true
  | .UInt32 => true
  | .UInt64 => true
  | .Float32 => true
  | .Float64 => true
  | .String => true
  | .Date => true
  | .Time => true
  | .Binary => true
  | .Null => true
  | _ => false

/-- Whether a `DataType` is matched by an explicit row of the shim's
discriminant table (everything except the polars variants the table
omits). -/
def tableMatched : DataType → Bool
  | .Int128 => false
  | .ArrayFixed _ _ => false
  | .BinaryOffset => false
  | .Object => false
  | _ => true

/-- The `AnyValue` constructors accepted by `pl_series_get_i64`. -/
def acceptsI64 : AnyValue → Bool
  | .Int64 _ => true
  | .Int32 _ => true
  | .Int16 _ => true
  | .Int8 _ => true
  | .UInt64 _ => true
  | .UInt32 _ => true
  | _ => false

def acceptsF64 : AnyValue → Bool
  | .Float64 _ => true
  | .Float32 _ => true
  | _ => false

def acceptsBool : AnyValue → Bool
  | .Boolean _ => true
  | _ => false

def acceptsStr : AnyValue → Bool
  | .StringValue _ => true
  | _ => false

def acceptsDecimal : AnyValue → Bool
  | .Decimal _ _ => true
  | _ => false

def acceptsDate : AnyValue → Bool
  | .Date _ => true
  | _ => false

def acceptsTime : AnyValue → Bool
  | .Time _ => true
  | _ => false

def acceptsDatetime : AnyValue → Bool
  | .Datetime _ _ _ => true
  | _ => false

def acceptsDuration : AnyValue → Bool
  | .Duration _ _ => true
  | _ => false

/-- The field names of a struct array's children. -/
def childNames : ArrowChildren → List String
  | .nil => []
  | .cons n _ _ rest => n :: childNames rest

/-- The number of children of a struct array. -/
def childCount : ArrowChildren → Nat
  | .nil => 0
  | .cons _ _ _ rest => childCount rest + 1

/-! ## Theorems -/

/-- C1: every kind round-trips through its default `DataType`
(`map_dtype_to_kind ∘ to_default_datatype = id`); non-parametric types
round-trip exactly in the other direction as well; and for each
parametric kind (Datetime, Duration, Decimal, List, Struct, Categorical,
Unknown) there is a type of that kind whose parameters the round trip
does not recover. -/
theorem C1_kind_discriminant_roundtrip :
    (∀ k : PlDataTypeKind, map_dtype_to_kind k.to_default_datatype = k)
    ∧ (∀ t : DataType, isNonParametricType t = true →
        (map_dtype_to_kind t).to_default_datatype = t)
    ∧ (map_dtype_to_kind (DataType.Datetime TimeUnit.Nanoseconds (some "UTC"))
          = PlDataTypeKind.Datetime
        ∧ (map_dtype_to_kind
            (DataType.Datetime TimeUnit.Nanoseconds (some "UTC"))).to_default_datatype
          ≠ DataType.Datetime TimeUnit.Nanoseconds (some "UTC"))
    ∧ (map_dtype_to_kind (DataType.Duration TimeUnit.Nanoseconds)
          = PlDataTypeKind.Duration
        ∧ (map_dtype_to_kind
            (DataType.Duration TimeUnit.Nanoseconds)).to_default_datatype
          ≠ DataType.Duration TimeUnit.Nanoseconds)
    ∧ (map_dtype_to_kind (DataType.Decimal (some 10) (some 2))
          = PlDataTypeKind.Decimal
        ∧ (map_dtype_to_kind
            (DataType.Decimal (some 10) (some 2))).to_default_datatype
          ≠ DataType.Decimal (some 10) (some 2))
    ∧ (map_dtype_to_kind (DataType.List DataType.Int64) = PlDataTypeKind.List
        ∧ (map_dtype_to_kind (DataType.List DataType.Int64)).to_default_datatype
          ≠ DataType.List DataType.Int64)
    ∧ (map_dtype_to_kind (DataType.Struct [("a", DataType.Int64)])
          = PlDataTypeKind.Struct
        ∧ (map_dtype_to_kind
            (DataType.Struct [("a", DataType.Int64)])).to_default_datatype
          ≠ DataType.Struct [("a", DataType.Int64)])
    ∧ (map_dtype_to_kind (DataType.Categorical 1 2) = PlDataTypeKind.Categorical
        ∧ (map_dtype_to_kind (DataType.Categorical 1 2)).to_default_datatype
          ≠ DataType.Categorical 1 2)
    ∧ (map_dtype_to_kind (DataType.Unknown (UnknownKind.IntKind 5))
          = PlDataTypeKind.Unknown
        ∧ (map_dtype_to_kind
            (DataType.Unknown (UnknownKind.IntKind 5))).to_default_datatype
          ≠ DataType.Unknown (UnknownKind.IntKind 5)) := by
  refine ⟨?_, ?_, ?_, ?_, ?_, ?_, ?_, ?_, ?_⟩
  · intro k
    cases k <;> rfl
  · intro t ht
    cases t <;> (try rfl) <;> simp [isNonParametricType] at ht
  all_goals
    exact ⟨rfl, by simp [map_dtype_to_kind, PlDataTypeKind.to_default_datatype,
      UnknownKind.default]⟩

/-- Witness for C1 at concrete inputs. -/
theorem C1_witness :
    map_dtype_to_kind PlDataTypeKind.Date.to_default_datatype = PlDataTypeKind.Date
    ∧ (map_dtype_to_kind DataType.Binary).to_default_datatype = DataType.Binary :=
  ⟨C1_kind_discriminant_roundtrip.1 PlDataTypeKind.Date,
   C1_kind_discriminant_roundtrip.2.1 DataType.Binary rfl⟩

theorem from_i32_eq_none (code : Int) (h : code < 0 ∨ 22 < code) :
    PlDataTypeKind.from_i32 code = none := by
  have h0 : code ≠ 0 := by omega
  have h1 : code ≠ 1 := by omega
  have h2 : code ≠ 2 := by omega
  have h3 : code ≠ 3 := by omega
  have h4 : code ≠ 4 := by omega
  have h5 : code ≠ 5 := by omega
  have h6 : code ≠ 6 := by omega
  have h7 : code ≠ 7 := by omega
  have h8 : code ≠ 8 := by omega
  have h9 : code ≠ 9 := by omega
  have h10 : code ≠ 10 := by omega
  have h11 : code ≠ 11 := by omega
  have h12 : code ≠ 12 := by omega
  have h13 : code ≠ 13 := by omega
  have h14 : code ≠ 14 := by omega
  have h15 : code ≠ 15 := by omega
  have h16 : code ≠ 16 := by omega
  have h17 : code ≠ 17 := by omega
  have h18 : code ≠ 18 := by omega
  have h19 : code ≠ 19 := by omega
  have h20 : code ≠ 20 := by omega
  have h21 : code ≠ 21 := by omega
  have h22 : code ≠ 22 := by omega
  simp [PlDataTypeKind.from_i32, h0, h1, h2, h3, h4, h5, h6, h7, h8, h9, h10,
    h11, h12, h13, h14, h15, h16, h17, h18, h19, h20, h21, h22]

/-- C8: every `i32` code outside the discriminant table (0..22) makes
`pl_datatype_new_primitive` succeed with the `Unknown` type, and
`map_dtype_to_kind` sends every `DataType` the table does not match to
the `Unknown` kind. -/
theorem C8_unknown_fallback :
    (∀ code : Int, code < 0 ∨ 22 < code →
        pl_datatype_new_primitive code = DataType.Unknown UnknownKind.default)
    ∧ (∀ t : DataType, tableMatched t = false →
        map_dtype_to_kind t = PlDataTypeKind.Unknown) := by
  constructor
  · intro code h
    unfold pl_datatype_new_primitive
    rw [from_i32_eq_none code h]
  · intro t ht
    cases t <;> (try rfl) <;> simp [tableMatched] at ht

/-- Witness for C8 at concrete inputs. -/
theorem C8_witness :
    pl_datatype_new_primitive 23 = DataType.Unknown UnknownKind.default
    ∧ map_dtype_to_kind DataType.Int128 = PlDataTypeKind.Unknown :=
  ⟨C8_unknown_fallback.1 23 (by omega), C8_unknown_fallback.2 DataType.Int128 rfl⟩

/-- C10: `map_jointype` maps every code outside 0..5 to `Inner`, so
`pl_lazy_join` builds an inner join for an unrecognized join-type code
instead of reporting an error. -/
theorem C10_unrecognized_code_is_inner :
    ∀ code : Int, code < 0 ∨ 5 < code →
      map_jointype code = JoinType.Inner
      ∧ ∀ (l r : LazyPlan) (lon ron : List Expr),
          pl_lazy_join l r lon ron code =
            LazyPlan.join l r lon ron (JoinArgs.mk JoinType.Inner) := by
  intro code h
  have hm : map_jointype code = JoinType.Inner := by
    have h0 : code ≠ 0 := by omega
    have h1 : code ≠ 1 := by omega
    have h2 : code ≠ 2 := by omega
    have h3 : code ≠ 3 := by omega
    have h4 : code ≠ 4 := by omega
    have h5 : code ≠ 5 := by omega
    unfold map_jointype
    split <;> simp_all
  exact ⟨hm, fun l r lon ron => by unfold pl_lazy_join; rw [hm]⟩

/-- Witness for C10 at a concrete code. -/
theorem C10_witness :
    map_jointype 99 = JoinType.Inner
    ∧ pl_lazy_join (LazyPlan.source 0) (LazyPlan.source 1) [] [] 99 =
        LazyPlan.join (LazyPlan.source 0) (LazyPlan.source 1) [] []
          (JoinArgs.mk JoinType.Inner) :=
  ⟨(C10_unrecognized_code_is_inner 99 (by omega)).1,
   (C10_unrecognized_code_is_inner 99 (by omega)).2
     (LazyPlan.source 0) (LazyPlan.source 1) [] []⟩

/-- C9: `pl_lazy_concat` returns a `ComputeError` for an empty input
list and for any strategy code other than 0, 1, 2; and in every case —
the failure cases included — the input plan pointers have already been
consumed (removed from the heap of live boxes). -/
theorem C9_concat_failures :
    ∀ (h : PlanHeap) (ptrs : List Nat) (how : Int) (rechunk parallel : Bool),
      (pl_lazy_concat h ptrs how rechunk parallel).1 = heapRemoveAll h ptrs
      ∧ (∀ q ∈ ptrs,
          ((pl_lazy_concat h ptrs how rechunk parallel).1.find?
            (fun e => e.1 == q)) = none)
      ∧ (ptrs = [] →
          (pl_lazy_concat h ptrs how rechunk parallel).2 =
            Except.error
              (PolarsError.ComputeError "Cannot concat empty list of LazyFrames"))
      ∧ (how ≠ 0 → how ≠ 1 → how ≠ 2 →
          ∃ msg, (pl_lazy_concat h ptrs how rechunk parallel).2 =
            Except.error (PolarsError.ComputeError msg)) := by
  intro h ptrs how rechunk parallel
  refine ⟨rfl, ?_, ?_, ?_⟩
  · intro q hq
    have : (pl_lazy_concat h ptrs how rechunk parallel).1 = heapRemoveAll h ptrs := rfl
    rw [this]
    rw [List.find?_eq_none]
    intro e he
    rw [heapRemoveAll, List.mem_filter] at he
    have hne : e.1 ∉ ptrs := by
      have := he.2
      simpa using this
    simp only [beq_iff_eq]
    intro hqe
    exact hne (hqe ▸ hq)
  · intro hnil
    subst hnil
    rfl
  · intro h0 h1 h2
    have hres : (pl_lazy_concat h ptrs how rechunk parallel).2 =
        lazyConcatResult
          (ptrs.filterMap (fun p => (h.find? (fun e => e.1 == p)).map Prod.snd))
          how rechunk parallel := rfl
    rw [hres]
    generalize (ptrs.filterMap
      (fun p => (h.find? (fun e => e.1 == p)).map Prod.snd)) = lfs
    unfold lazyConcatResult
    cases hemp : lfs.isEmpty
    · rw [if_neg (by simp [hemp])]
      refine ⟨"Invalid lazy concat strategy", ?_⟩
      split <;> simp_all
    · exact ⟨"Cannot concat empty list of LazyFrames", by rw [if_pos (by simp [hemp])]⟩

/-- Witness for C9 at concrete inputs. -/
theorem C9_witness :
    (pl_lazy_concat [(1, LazyPlan.source 0)] [] 0 true true).2 =
      Except.error (PolarsError.ComputeError "Cannot concat empty list of LazyFrames")
    ∧ (∃ msg, (pl_lazy_concat [(1, LazyPlan.source 0)] [1] 7 true true).2 =
        Except.error (PolarsError.ComputeError msg))
    ∧ ((pl_lazy_concat [(1, LazyPlan.source 0)] [1] 7 true true).1.find?
        (fun e => e.1 == 1)) = none :=
  ⟨(C9_concat_failures [(1, LazyPlan.source 0)] [] 0 true true).2.2.1 rfl,
   (C9_concat_failures [(1, LazyPlan.source 0)] [1] 7 true true).2.2.2
     (by omega) (by omega) (by omega),
   (C9_concat_failures [(1, LazyPlan.source 0)] [1] 7 true true).2.1 1
     (by simp)⟩

/-- C7: `pl_selector_not` builds exactly `Difference(Wildcard, s)`,
`pl_selector_and` exactly `Intersect`, `pl_selector_or` exactly `Union`;
under the spec's schema-resolution semantics the complement is therefore
taken relative to the full column set, and and/or act as set
intersection/union. -/
theorem C7_selector_combinators :
    (∀ s, pl_selector_not s = Selector.Difference Selector.Wildcard s)
    ∧ (∀ l r, pl_selector_and l r = Selector.Intersect l r)
    ∧ (∀ l r, pl_selector_or l r = Selector.Union l r)
    ∧ (∀ s schema e, e ∈ resolveSelector (pl_selector_not s) schema ↔
        e ∈ resolveSelector Selector.Wildcard schema ∧ e ∉ resolveSelector s schema)
    ∧ (∀ l r schema e, e ∈ resolveSelector (pl_selector_and l r) schema ↔
        e ∈ resolveSelector l schema ∧ e ∈ resolveSelector r schema)
    ∧ (∀ l r schema e, e ∈ resolveSelector (pl_selector_or l r) schema ↔
        e ∈ resolveSelector l schema ∨ e ∈ resolveSelector r schema) := by
  refine ⟨fun s => rfl, fun l r => rfl, fun l r => rfl, ?_, ?_, ?_⟩
  · intro s schema e
    simp only [pl_selector_not, resolveSelector, List.mem_filter,
      Selector.matchesCol]
    by_cases hm : s.matchesCol e = true <;> by_cases he : e ∈ schema <;>
      simp [hm, he]
  · intro l r schema e
    simp only [pl_selector_and, resolveSelector, List.mem_filter,
      Selector.matchesCol, Bool.and_eq_true]
    tauto
  · intro l r schema e
    simp only [pl_selector_or, resolveSelector, List.mem_filter,
      Selector.matchesCol, Bool.or_eq_true]
    tauto

mutual

theorem dtEq_eq : ∀ d e : ArrowDataType, dtEq d e = true ↔ d = e
  | .other t1, .other t2 => by simp [dtEq]
  | .other _, .list .. => ⟨fun h => Bool.noConfusion h, fun h => ArrowDataType.noConfusion h⟩
  | .other _, .largeList .. => ⟨fun h => Bool.noConfusion h, fun h => ArrowDataType.noConfusion h⟩
  | .other _, .struct _ => ⟨fun h => Bool.noConfusion h, fun h => ArrowDataType.noConfusion h⟩
  | .list .., .other _ => ⟨fun h => Bool.noConfusion h, fun h => ArrowDataType.noConfusion h⟩
  | .list n1 b1 i1, .list n2 b2 i2 => by simp [dtEq, dtEq_eq i1 i2, and_assoc]
  | .list .., .largeList .. => ⟨fun h => Bool.noConfusion h, fun h => ArrowDataType.noConfusion h⟩
  | .list .., .struct _ => ⟨fun h => Bool.noConfusion h, fun h => ArrowDataType.noConfusion h⟩
  | .largeList .., .other _ => ⟨fun h => Bool.noConfusion h, fun h => ArrowDataType.noConfusion h⟩
  | .largeList .., .list .. => ⟨fun h => Bool.noConfusion h, fun h => ArrowDataType.noConfusion h⟩
  | .largeList n1 b1 i1, .largeList n2 b2 i2 => by simp [dtEq, dtEq_eq i1 i2, and_assoc]
  | .largeList .., .struct _ => ⟨fun h => Bool.noConfusion h, fun h => ArrowDataType.noConfusion h⟩
  | .struct _, .other _ => ⟨fun h => Bool.noConfusion h, fun h => ArrowDataType.noConfusion h⟩
  | .struct _, .list .. => ⟨fun h => Bool.noConfusion h, fun h => ArrowDataType.noConfusion h⟩
  | .struct _, .largeList .. => ⟨fun h => Bool.noConfusion h, fun h => ArrowDataType.noConfusion h⟩
  | .struct f1, .struct f2 => by simp [dtEq, dtFieldsEq_eq f1 f2]

theorem dtFieldsEq_eq : ∀ f1 f2 : ArrowDTFields, dtFieldsEq f1 f2 = true ↔ f1 = f2
  | .nil, .nil => by simp [dtFieldsEq]
  | .nil, .cons .. => ⟨fun h => Bool.noConfusion h, fun h => ArrowDTFields.noConfusion h⟩
  | .cons .., .nil => ⟨fun h => Bool.noConfusion h, fun h => ArrowDTFields.noConfusion h⟩
  | .cons n1 b1 d1 r1, .cons n2 b2 d2 r2 => by
      simp [dtFieldsEq, dtEq_eq d1 d2, dtFieldsEq_eq r1 r2, and_assoc]

end

theorem dtEq_refl (d : ArrowDataType) : dtEq d d = true := (dtEq_eq d d).mpr rfl

theorem childrenChanged_refl : ∀ cs : ArrowChildren, childrenChanged cs cs = false
  | .nil => rfl
  | .cons n b c r => by
      simp [childrenChanged, dtEq_refl, childrenChanged_refl r]

mutual

theorem upgrade_fix :
    ∀ a : ArrowArray, (upgrade_to_large_list a).dtype = a.dtype →
      upgrade_to_large_list a = a
  | .other .., _ => rfl
  | .list32 n b offs v val, h => by
      exfalso
      simp only [upgrade_to_large_list, ArrowArray.dtype] at h
      exact ArrowDataType.noConfusion h
  | .list64 n b offs v val, h => by
      simp only [upgrade_to_large_list] at h ⊢
      by_cases hc : dtEq (upgrade_to_large_list v).dtype v.dtype = true
      · rw [if_pos hc]
      · rw [if_neg hc] at h
        rw [if_neg hc]
        simp only [ArrowArray.dtype] at h
        injection h with h1 h2 h3
        exact absurd ((dtEq_eq _ _).mpr h3) hc
  | .struct len cs val, h => by
      simp only [upgrade_to_large_list] at h ⊢
      by_cases hch : childrenChanged cs (upgradeChildren cs) = true
      · rw [if_pos hch] at h
        rw [if_pos hch]
        simp only [ArrowArray.dtype] at h
        injection h with hfs
        rw [upgradeChildren_fix cs hfs]
      · rw [if_neg hch]

theorem upgradeChildren_fix :
    ∀ cs : ArrowChildren, (upgradeChildren cs).dtypes = cs.dtypes →
      upgradeChildren cs = cs
  | .nil, _ => rfl
  | .cons n b c r, h => by
      simp only [upgradeChildren, ArrowChildren.dtypes] at h ⊢
      injection h with h1 h2 h3 h4
      rw [upgrade_fix c h3, upgradeChildren_fix r h4]

end

theorem upgradeChildren_fix_of_notChanged :
    ∀ cs : ArrowChildren, childrenChanged cs (upgradeChildren cs) = false →
      upgradeChildren cs = cs
  | .nil, _ => rfl
  | .cons n b c r, h => by
      simp only [upgradeChildren, childrenChanged, Bool.or_eq_false_iff,
        Bool.not_eq_false'] at h
      rw [upgradeChildren]
      rw [upgrade_fix c ((dtEq_eq _ _).mp h.1).symm,
        upgradeChildren_fix_of_notChanged r h.2]

mutual

theorem upgrade_eq_widenSpec :
    ∀ a : ArrowArray, upgrade_to_large_list a = widenSpec a
  | .other tag len val => rfl
  | .list32 n b offs v val => by
      simp only [upgrade_to_large_list, widenSpec]
      rw [upgrade_eq_widenSpec v]
  | .list64 n b offs v val => by
      simp only [upgrade_to_large_list, widenSpec]
      by_cases hc : dtEq (upgrade_to_large_list v).dtype v.dtype = true
      · rw [if_pos hc]
        have hfix := upgrade_fix v ((dtEq_eq _ _).mp hc)
        rw [← upgrade_eq_widenSpec v, hfix]
      · rw [if_neg hc, upgrade_eq_widenSpec v]
  | .struct len cs val => by
      simp only [upgrade_to_large_list, widenSpec]
      by_cases hch : childrenChanged cs (upgradeChildren cs) = true
      · rw [if_pos hch, upgradeChildren_eq_widenSpecChildren cs]
      · rw [if_neg hch]
        have hfix := upgradeChildren_fix_of_notChanged cs
          (by rw [← Bool.not_eq_true]; exact hch)
        rw [← upgradeChildren_eq_widenSpecChildren cs, hfix]

theorem upgradeChildren_eq_widenSpecChildren :
    ∀ cs : ArrowChildren, upgradeChildren cs = widenSpecChildren cs
  | .nil => rfl
  | .cons n b c r => by
      simp only [upgradeChildren, widenSpecChildren]
      rw [upgrade_eq_widenSpec c, upgradeChildren_eq_widenSpecChildren r]

end

theorem widenSpec_length (a : ArrowArray) : (widenSpec a).length = a.length := by
  cases a with
  | other tag len val => rfl
  | list32 n b offs v val =>
      simp [widenSpec, ArrowArray.length]
  | list64 n b offs v val => rfl
  | struct len cs val => rfl

theorem widenSpec_validity (a : ArrowArray) : (widenSpec a).validity = a.validity := by
  cases a <;> rfl

mutual

theorem noSmallList_widenSpec : ∀ a : ArrowArray, noSmallList (widenSpec a) = true
  | .other .. => rfl
  | .list32 n b offs v val => by
      simp [widenSpec, noSmallList, noSmallList_widenSpec v]
  | .list64 n b offs v val => by
      simp [widenSpec, noSmallList, noSmallList_widenSpec v]
  | .struct len cs val => by
      simp [widenSpec, noSmallList, noSmallListChildren_widenSpec cs]

theorem noSmallListChildren_widenSpec :
    ∀ cs : ArrowChildren, noSmallListChildren (widenSpecChildren cs) = true
  | .nil => rfl
  | .cons n b c r => by
      simp [widenSpecChildren, noSmallListChildren, noSmallList_widenSpec c,
        noSmallListChildren_widenSpec r]

end

mutual

theorem widenSpec_fix :
    ∀ a : ArrowArray, noSmallList a = true → widenSpec a = a
  | .other .., _ => rfl
  | .list32 .., h => by simp [noSmallList] at h
  | .list64 n b offs v val, h => by
      simp only [noSmallList] at h
      simp only [widenSpec]
      rw [widenSpec_fix v h]
  | .struct len cs val, h => by
      simp only [noSmallList] at h
      simp only [widenSpec]
      rw [widenSpecChildren_fix cs h]

theorem widenSpecChildren_fix :
    ∀ cs : ArrowChildren, noSmallListChildren cs = true → widenSpecChildren cs = cs
  | .nil, _ => rfl
  | .cons n b c r, h => by
      simp only [noSmallListChildren, Bool.and_eq_true] at h
      simp only [widenSpecChildren]
      rw [widenSpec_fix c h.1, widenSpecChildren_fix r h.2]

end

/-- C2: `upgrade_to_large_list` computes exactly the spec's recursive
widening (every 32-bit list becomes a 64-bit large list with the same
widened offsets and recursively widened values, through struct fields
and large-list values); it preserves length and validity, leaves no
32-bit list in the result, returns an array that is already fully
widened unchanged (the fixpoint short-circuit), and leaves non-container
arrays untouched. -/
theorem C2_upgrade_to_large_list :
    ∀ a : ArrowArray,
      upgrade_to_large_list a = widenSpec a
      ∧ (upgrade_to_large_list a).length = a.length
      ∧ (upgrade_to_large_list a).validity = a.validity
      ∧ noSmallList (upgrade_to_large_list a) = true
      ∧ (noSmallList a = true → upgrade_to_large_list a = a)
      ∧ (∀ tag len validity,
          upgrade_to_large_list (ArrowArray.other tag len validity) =
            ArrowArray.other tag len validity) := by
  intro a
  have he := upgrade_eq_widenSpec a
  refine ⟨he, ?_, ?_, ?_, ?_, fun tag len validity => rfl⟩
  · rw [he, widenSpec_length]
  · rw [he, widenSpec_validity]
  · rw [he]
    exact noSmallList_widenSpec a
  · intro h
    rw [he]
    exact widenSpec_fix a h

/-- Witness for C2 at concrete arrays: a struct containing a 32-bit
list is widened, and an already-widened large list is returned
unchanged. -/
theorem C2_witness :
    upgrade_to_large_list
        (ArrowArray.struct 1
          (ArrowChildren.cons "xs" true
            (ArrowArray.list32 "item" true [0, 2] (ArrowArray.other 0 2 none) none)
            ArrowChildren.nil)
          none) =
      ArrowArray.struct 1
        (ArrowChildren.cons "xs" true
          (ArrowArray.list64 "item" true [0, 2] (ArrowArray.other 0 2 none) none)
          ArrowChildren.nil)
        none
    ∧ upgrade_to_large_list
        (ArrowArray.list64 "item" true [0, 1] (ArrowArray.other 3 1 none) none) =
      ArrowArray.list64 "item" true [0, 1] (ArrowArray.other 3 1 none) none := by
  constructor
  · rw [(C2_upgrade_to_large_list
      (ArrowArray.struct 1
        (ArrowChildren.cons "xs" true
          (ArrowArray.list32 "item" true [0, 2] (ArrowArray.other 0 2 none) none)
          ArrowChildren.nil)
        none)).1]
    rfl
  · exact (C2_upgrade_to_large_list
      (ArrowArray.list64 "item" true [0, 1] (ArrowArray.other 3 1 none) none)).2.2.2.2.1
      rfl

theorem idx_lt_of_getElem?_eq_some {s : Series} {idx : Nat} {av : AnyValue}
    (hsome : s[idx]? = some av) : ¬ s.length ≤ idx := by
  intro hle
  rw [List.getElem?_eq_none hle] at hsome
  cases hsome

theorem seriesGet_eq_ok {s : Series} {idx : Nat} {av : AnyValue}
    (hsome : s[idx]? = some av) : seriesGet s idx = Except.ok av := by
  unfold seriesGet
  rw [hsome]

theorem get_i64_mismatch (s : Series) (idx : Nat) (av : AnyValue)
    (hsome : s[idx]? = some av) (hacc : acceptsI64 av = false) :
    pl_series_get_i64 s idx = none := by
  unfold pl_series_get_i64
  rw [if_neg (idx_lt_of_getElem?_eq_some hsome), seriesGet_eq_ok hsome]
  cases av <;> first | rfl | simp [acceptsI64] at hacc

theorem get_f64_mismatch (s : Series) (idx : Nat) (av : AnyValue)
    (hsome : s[idx]? = some av) (hacc : acceptsF64 av = false) :
    pl_series_get_f64 s idx = none := by
  unfold pl_series_get_f64
  rw [if_neg (idx_lt_of_getElem?_eq_some hsome), seriesGet_eq_ok hsome]
  cases av <;> first | rfl | simp [acceptsF64] at hacc

theorem get_bool_mismatch (s : Series) (idx : Nat) (av : AnyValue)
    (hsome : s[idx]? = some av) (hacc : acceptsBool av = false) :
    pl_series_get_bool s idx = none := by
  unfold pl_series_get_bool
  rw [if_neg (idx_lt_of_getElem?_eq_some hsome), seriesGet_eq_ok hsome]
  cases av <;> first | rfl | simp [acceptsBool] at hacc

theorem get_str_mismatch (s : Series) (idx : Nat) (av : AnyValue)
    (hsome : s[idx]? = some av) (hacc : acceptsStr av = false) :
    pl_series_get_str s idx = none := by
  unfold pl_series_get_str
  rw [if_neg (idx_lt_of_getElem?_eq_some hsome), seriesGet_eq_ok hsome]
  cases av <;> first | rfl | simp [acceptsStr] at hacc

theorem get_decimal_mismatch (s : Series) (idx : Nat) (av : AnyValue)
    (hsome : s[idx]? = some av) (hacc : acceptsDecimal av = false) :
    pl_series_get_decimal s idx = none := by
  unfold pl_series_get_decimal
  rw [if_neg (idx_lt_of_getElem?_eq_some hsome), seriesGet_eq_ok hsome]
  cases av <;> first | rfl | simp [acceptsDecimal] at hacc

theorem get_date_mismatch (s : Series) (idx : Nat) (av : AnyValue)
    (hsome : s[idx]? = some av) (hacc : acceptsDate av = false) :
    pl_series_get_date s idx = none := by
  unfold pl_series_get_date
  rw [if_neg (idx_lt_of_getElem?_eq_some hsome), seriesGet_eq_ok hsome]
  cases av <;> first | rfl | simp [acceptsDate] at hacc

theorem get_time_mismatch (s : Series) (idx : Nat) (av : AnyValue)
    (hsome : s[idx]? = some av) (hacc : acceptsTime av = false) :
    pl_series_get_time s idx = none := by
  unfold pl_series_get_time
  rw [if_neg (idx_lt_of_getElem?_eq_some hsome), seriesGet_eq_ok hsome]
  cases av <;> first | rfl | simp [acceptsTime] at hacc

theorem get_datetime_mismatch (s : Series) (idx : Nat) (av : AnyValue)
    (hsome : s[idx]? = some av) (hacc : acceptsDatetime av = false) :
    pl_series_get_datetime s idx = none := by
  unfold pl_series_get_datetime
  rw [if_neg (idx_lt_of_getElem?_eq_some hsome), seriesGet_eq_ok hsome]
  cases av <;> first | rfl | simp [acceptsDatetime] at hacc

theorem get_duration_mismatch (s : Series) (idx : Nat) (av : AnyValue)
    (hsome : s[idx]? = some av) (hacc : acceptsDuration av = false) :
    pl_series_get_duration s idx = none := by
  unfold pl_series_get_duration
  rw [if_neg (idx_lt_of_getElem?_eq_some hsome), seriesGet_eq_ok hsome]
  cases av <;> first | rfl | simp [acceptsDuration] at hacc

/-- C4: every typed scalar accessor fails (and, by the `Option` model,
writes nothing) on an out-of-range index, on a null element, and on an
element of mismatched physical type; `pl_series_is_null_at` is `false`
out of range; and on a length-0 Series every accessor fails and
`null_count` is 0. -/
theorem C4_scalar_accessor_guards :
    ∀ (s : Series) (idx : Nat),
      (s.length ≤ idx →
        pl_series_get_i64 s idx = none ∧ pl_series_get_f64 s idx = none
        ∧ pl_series_get_bool s idx = none ∧ pl_series_get_str s idx = none
        ∧ pl_series_get_decimal s idx = none ∧ pl_series_get_date s idx = none
        ∧ pl_series_get_time s idx = none ∧ pl_series_get_datetime s idx = none
        ∧ pl_series_get_duration s idx = none
        ∧ pl_series_is_null_at s idx = false)
      ∧ (s[idx]? = some AnyValue.Null →
        pl_series_get_i64 s idx = none ∧ pl_series_get_f64 s idx = none
        ∧ pl_series_get_bool s idx = none ∧ pl_series_get_str s idx = none
        ∧ pl_series_get_decimal s idx = none ∧ pl_series_get_date s idx = none
        ∧ pl_series_get_time s idx = none ∧ pl_series_get_datetime s idx = none
        ∧ pl_series_get_duration s idx = none)
      ∧ (∀ av, s[idx]? = some av →
          (acceptsI64 av = false → pl_series_get_i64 s idx = none)
          ∧ (acceptsF64 av = false → pl_series_get_f64 s idx = none)
          ∧ (acceptsBool av = false → pl_series_get_bool s idx = none)
          ∧ (acceptsStr av = false → pl_series_get_str s idx = none)
          ∧ (acceptsDecimal av = false → pl_series_get_decimal s idx = none)
          ∧ (acceptsDate av = false → pl_series_get_date s idx = none)
          ∧ (acceptsTime av = false → pl_series_get_time s idx = none)
          ∧ (acceptsDatetime av = false → pl_series_get_datetime s idx = none)
          ∧ (acceptsDuration av = false → pl_series_get_duration s idx = none))
      ∧ (s.length = 0 →
          (pl_series_get_i64 s idx = none ∧ pl_series_get_f64 s idx = none
          ∧ pl_series_get_bool s idx = none ∧ pl_series_get_str s idx = none
          ∧ pl_series_get_decimal s idx = none ∧ pl_series_get_date s idx = none
          ∧ pl_series_get_time s idx = none ∧ pl_series_get_datetime s idx = none
          ∧ pl_series_get_duration s idx = none)
          ∧ pl_series_null_count s = 0) := by
  intro s idx
  have oob : s.length ≤ idx →
      pl_series_get_i64 s idx = none ∧ pl_series_get_f64 s idx = none
      ∧ pl_series_get_bool s idx = none ∧ pl_series_get_str s idx = none
      ∧ pl_series_get_decimal s idx = none ∧ pl_series_get_date s idx = none
      ∧ pl_series_get_time s idx = none ∧ pl_series_get_datetime s idx = none
      ∧ pl_series_get_duration s idx = none := by
    intro h
    exact ⟨by simp [pl_series_get_i64, h], by simp [pl_series_get_f64, h],
      by simp [pl_series_get_bool, h], by simp [pl_series_get_str, h],
      by simp [pl_series_get_decimal, h], by simp [pl_series_get_date, h],
      by simp [pl_series_get_time, h], by simp [pl_series_get_datetime, h],
      by simp [pl_series_get_duration, h]⟩
  refine ⟨?_, ?_, ?_, ?_⟩
  · intro h
    refine ⟨(oob h).1, (oob h).2.1, (oob h).2.2.1, (oob h).2.2.2.1,
      (oob h).2.2.2.2.1, (oob h).2.2.2.2.2.1, (oob h).2.2.2.2.2.2.1,
      (oob h).2.2.2.2.2.2.2.1, (oob h).2.2.2.2.2.2.2.2, ?_⟩
    simp [pl_series_is_null_at, h]
  · intro hnull
    exact ⟨get_i64_mismatch s idx _ hnull rfl, get_f64_mismatch s idx _ hnull rfl,
      get_bool_mismatch s idx _ hnull rfl, get_str_mismatch s idx _ hnull rfl,
      get_decimal_mismatch s idx _ hnull rfl, get_date_mismatch s idx _ hnull rfl,
      get_time_mismatch s idx _ hnull rfl, get_datetime_mismatch s idx _ hnull rfl,
      get_duration_mismatch s idx _ hnull rfl⟩
  · intro av hsome
    exact ⟨get_i64_mismatch s idx av hsome, get_f64_mismatch s idx av hsome,
      get_bool_mismatch s idx av hsome, get_str_mismatch s idx av hsome,
      get_decimal_mismatch s idx av hsome, get_date_mismatch s idx av hsome,
      get_time_mismatch s idx av hsome, get_datetime_mismatch s idx av hsome,
      get_duration_mismatch s idx av hsome⟩
  · intro h0
    refine ⟨oob (by omega), ?_⟩
    have hs : s = [] := List.length_eq_zero.mp h0
    subst hs
    rfl

/-- Witness for C4 at concrete inputs. -/
theorem C4_witness :
    pl_series_get_i64 [AnyValue.Int64 3, AnyValue.Null] 5 = none
    ∧ pl_series_is_null_at [AnyValue.Int64 3, AnyValue.Null] 5 = false
    ∧ pl_series_get_bool [AnyValue.Int64 3, AnyValue.Null] 0 = none
    ∧ pl_series_get_i64 [AnyValue.Int64 3, AnyValue.Null] 1 = none
    ∧ pl_series_get_i64 ([] : Series) 0 = none
    ∧ pl_series_null_count ([] : Series) = 0 :=
  ⟨((C4_scalar_accessor_guards [AnyValue.Int64 3, AnyValue.Null] 5).1 (by simp)).1,
   ((C4_scalar_accessor_guards [AnyValue.Int64 3, AnyValue.Null] 5).1 (by simp)).2.2.2.2.2.2.2.2.2,
   (((C4_scalar_accessor_guards [AnyValue.Int64 3, AnyValue.Null] 0).2.2.1
      (AnyValue.Int64 3) rfl).2.2.1) rfl,
   ((C4_scalar_accessor_guards [AnyValue.Int64 3, AnyValue.Null] 1).2.1 rfl).1,
   (((C4_scalar_accessor_guards ([] : Series) 0).2.2.2 rfl).1).1,
   ((C4_scalar_accessor_guards ([] : Series) 0).2.2.2 rfl).2⟩

theorem DataFrame_new_ok {cols df : List Column}
    (h : DataFrame.new cols = Except.ok df) : df = cols := by
  unfold DataFrame.new at h
  split_ifs at h
  cases h
  rfl

theorem structColumns_names :
    ∀ cs : ArrowChildren, (structColumns cs).map Prod.fst = childNames cs
  | .nil => rfl
  | .cons n b c rest => by
      simp [structColumns, childNames, structColumns_names rest]

theorem structColumns_length :
    ∀ cs : ArrowChildren, (structColumns cs).length = childCount cs
  | .nil => rfl
  | .cons n b c rest => by
      simp [structColumns, childCount, structColumns_length rest]

/-- C3: a successful record-batch import of a struct-rooted array yields
one column per struct field, named after its field; for any other root
it yields the single column named after the imported root field. -/
theorem C3_record_batch_columns :
    ∀ (rootName : String) (a : ArrowArray) (df : List Column),
      pl_dataframe_from_arrow_record_batch rootName a = Except.ok df →
      (∀ len children validity, a = ArrowArray.struct len children validity →
        df = structColumns children
        ∧ df.map Prod.fst = childNames children
        ∧ df.length = childCount children)
      ∧ ((∀ len children validity, a ≠ ArrowArray.struct len children validity) →
          df = [(rootName, a)]) := by
  intro rootName a df himp
  constructor
  · intro len children validity ha
    subst ha
    have hdf : df = structColumns children := DataFrame_new_ok himp
    subst hdf
    exact ⟨rfl, structColumns_names children, structColumns_length children⟩
  · intro hne
    cases a with
    | struct len children validity => exact absurd rfl (hne len children validity)
    | other tag len validity =>
        have h' : DataFrame.new [(rootName, ArrowArray.other tag len validity)] =
          Except.ok df := himp
        exact DataFrame_new_ok h'
    | list32 n b offs v val =>
        have h' : DataFrame.new [(rootName, ArrowArray.list32 n b offs v val)] =
          Except.ok df := himp
        exact DataFrame_new_ok h'
    | list64 n b offs v val =>
        have h' : DataFrame.new [(rootName, ArrowArray.list64 n b offs v val)] =
          Except.ok df := himp
        exact DataFrame_new_ok h'

/-- Witness for C3 at concrete record batches. -/
theorem C3_witness :
    (([("a", ArrowArray.other 0 2 none), ("b", ArrowArray.other 1 2 none)] :
        List Column).map Prod.fst =
      childNames (ArrowChildren.cons "a" true (ArrowArray.other 0 2 none)
        (ArrowChildren.cons "b" true (ArrowArray.other 1 2 none) ArrowChildren.nil)))
    ∧ ([("root", ArrowArray.other 7 3 none)] : List Column) =
        [("root", ArrowArray.other 7 3 none)] :=
  ⟨((C3_record_batch_columns "ignored"
      (ArrowArray.struct 2
        (ArrowChildren.cons "a" true (ArrowArray.other 0 2 none)
          (ArrowChildren.cons "b" true (ArrowArray.other 1 2 none) ArrowChildren.nil))
        none)
      [("a", ArrowArray.other 0 2 none), ("b", ArrowArray.other 1 2 none)]
      rfl).1 2 _ none rfl).2.1,
   (C3_record_batch_columns "root" (ArrowArray.other 7 3 none)
      [("root", ArrowArray.other 7 3 none)] rfl).2
     (fun len children validity h => by cases h)⟩

theorem sinkCall_all_ok (cb : Chunk → Int × String) :
    ∀ chunks : List Chunk, (∀ c ∈ chunks, (cb c).1 = 0) →
      sinkCall cb chunks = (chunks, Except.ok DataFrame.empty)
  | [], _ => rfl
  | c :: rest, h => by
      have hc : (cb c).1 = 0 := h c (List.mem_cons_self c rest)
      have ih := sinkCall_all_ok cb rest (fun d hd => h d (List.mem_cons_of_mem c hd))
      simp only [sinkCall]
      rw [if_neg (show ¬((cb c).1 ≠ 0) by simp [hc]), ih]

theorem sinkCall_first_err (cb : Chunk → Int × String) :
    ∀ (pre : List Chunk) (c : Chunk) (post : List Chunk),
      (∀ d ∈ pre, (cb d).1 = 0) → (cb c).1 ≠ 0 →
      sinkCall cb (pre ++ c :: post) =
        (pre ++ [c],
         Except.error (PolarsError.ComputeError ("C# Sink Failed: " ++ (cb c).2)))
  | [], c, post, _, hc => by
      simp only [List.nil_append, sinkCall]
      rw [if_pos hc]
  | d :: pre, c, post, hpre, hc => by
      have hd : (cb d).1 = 0 := hpre d (List.mem_cons_self d pre)
      have ih := sinkCall_first_err cb pre c post
        (fun e he => hpre e (List.mem_cons_of_mem d he)) hc
      simp only [List.cons_append, sinkCall]
      rw [if_neg (show ¬((cb d).1 ≠ 0) by simp [hd])]
      simp only [List.append_eq]
      rw [ih]

/-- C6: the sink callback receives the chunks in order; the first chunk
with a nonzero status aborts with a `ComputeError` carrying the
callback's message and no later chunk is delivered; if every chunk
succeeds the transform returns the empty DataFrame. -/
theorem C6_sink_order_and_abort :
    ∀ (cb : Chunk → Int × String) (chunks : List Chunk),
      ((∀ c ∈ chunks, (cb c).1 = 0) →
        sinkCall cb chunks = (chunks, Except.ok DataFrame.empty))
      ∧ (∀ pre c post, chunks = pre ++ c :: post →
          (∀ d ∈ pre, (cb d).1 = 0) → (cb c).1 ≠ 0 →
          (sinkCall cb chunks).1 = pre ++ [c]
          ∧ (sinkCall cb chunks).2 =
              Except.error
                (PolarsError.ComputeError ("C# Sink Failed: " ++ (cb c).2))) := by
  intro cb chunks
  constructor
  · exact sinkCall_all_ok cb chunks
  · intro pre c post hsplit hpre hc
    subst hsplit
    rw [sinkCall_first_err cb pre c post hpre hc]
    exact ⟨rfl, rfl⟩

/-- Witness for C6 at a concrete callback and chunk list. -/
theorem C6_witness :
    (sinkCall (fun _ => ((0 : Int), "")) [5] = ([5], Except.ok DataFrame.empty))
    ∧ (sinkCall (fun c => if c = 1 then ((1 : Int), "boom") else ((0 : Int), ""))
        [0, 1, 2]).1 = [0, 1]
    ∧ (sinkCall (fun c => if c = 1 then ((1 : Int), "boom") else ((0 : Int), ""))
        [0, 1, 2]).2 =
      Except.error (PolarsError.ComputeError ("C# Sink Failed: " ++
        ((fun c => if c = 1 then ((1 : Int), "boom") else ((0 : Int), "")) 1).2)) :=
  ⟨(C6_sink_order_and_abort (fun _ => ((0 : Int), "")) [5]).1 (by decide),
   ((C6_sink_order_and_abort
      (fun c => if c = 1 then ((1 : Int), "boom") else ((0 : Int), "")) [0, 1, 2]).2
      [0] 1 [2] rfl (by decide) (by decide)).1,
   ((C6_sink_order_and_abort
      (fun c => if c = 1 then ((1 : Int), "boom") else ((0 : Int), "")) [0, 1, 2]).2
      [0] 1 [2] rfl (by decide) (by decide)).2⟩

theorem rustParseI64_empty : rustParseI64 "" = none := rfl

theorem rustParsesF64_empty : rustParsesF64 "" = false := rfl

theorem asofToleranceOf_int {ts : String} {v : Int}
    (h : rustParseI64 ts = some v) :
    asofToleranceOf ts = (some (Scalar.int64 v), none) := by
  have hne : ts ≠ "" := by
    intro he
    subst he
    rw [rustParseI64_empty] at h
    cases h
  unfold asofToleranceOf
  rw [if_neg hne, h]

theorem asofToleranceOf_float {ts : String}
    (h1 : rustParseI64 ts = none) (h2 : rustParsesF64 ts = true) :
    asofToleranceOf ts = (some Scalar.float64, none) := by
  have hne : ts ≠ "" := by
    intro he
    subst he
    rw [rustParsesF64_empty] at h2
    cases h2
  unfold asofToleranceOf
  rw [if_neg hne, h1, if_pos h2]

theorem asofToleranceOf_duration {ts : String}
    (hne : ts ≠ "") (h1 : rustParseI64 ts = none) (h2 : rustParsesF64 ts = false) :
    asofToleranceOf ts = (none, some ts) := by
  unfold asofToleranceOf
  rw [if_neg hne, h1, if_neg (by simp [h2])]

/-- C5: `pl_lazy_join_asof` always sets `allow_eq` and
`check_sortedness`; `"forward"`/`"nearest"` select the Forward/Nearest
strategy and everything else Backward; a null/empty tolerance yields no
tolerance, an `i64`-parsable string an Int64 scalar, an `f64`-parsable
string a Float64 scalar, and any other non-empty string passes through
as a duration string. -/
theorem C5_asof_options :
    ∀ (left right : LazyPlan) (lon ron : Expr) (by_l by_r : List Expr)
      (sa ta : Option String),
      ∃ opts : AsOfOptions,
        pl_lazy_join_asof left right lon ron by_l by_r sa ta =
          LazyPlan.join left right [lon] [ron] (JoinArgs.mk (JoinType.AsOf opts))
        ∧ opts.allow_eq = true
        ∧ opts.check_sortedness = true
        ∧ (sa.getD "backward" = "forward" → opts.strategy = AsofStrategy.Forward)
        ∧ (sa.getD "backward" = "nearest" → opts.strategy = AsofStrategy.Nearest)
        ∧ (sa.getD "backward" ≠ "forward" → sa.getD "backward" ≠ "nearest" →
            opts.strategy = AsofStrategy.Backward)
        ∧ (ta = none ∨ ta = some "" →
            opts.tolerance = none ∧ opts.tolerance_str = none)
        ∧ (∀ ts v, ta = some ts → rustParseI64 ts = some v →
            opts.tolerance = some (Scalar.int64 v) ∧ opts.tolerance_str = none)
        ∧ (∀ ts, ta = some ts → rustParseI64 ts = none → rustParsesF64 ts = true →
            opts.tolerance = some Scalar.float64 ∧ opts.tolerance_str = none)
        ∧ (∀ ts, ta = some ts → ts ≠ "" → rustParseI64 ts = none →
            rustParsesF64 ts = false →
            opts.tolerance = none ∧ opts.tolerance_str = some ts) := by
  intro left right lon ron by_l by_r sa ta
  refine ⟨asofOptionsOf by_l by_r sa ta, rfl, rfl, rfl, ?_, ?_, ?_, ?_, ?_, ?_, ?_⟩
  · intro h
    show asofStrategyOf (sa.getD "backward") = AsofStrategy.Forward
    unfold asofStrategyOf
    rw [if_pos h]
  · intro h
    show asofStrategyOf (sa.getD "backward") = AsofStrategy.Nearest
    unfold asofStrategyOf
    rw [h]
    simp
  · intro h1 h2
    show asofStrategyOf (sa.getD "backward") = AsofStrategy.Backward
    unfold asofStrategyOf
    rw [if_neg h1, if_neg h2]
  · intro h
    rcases h with h | h <;> subst h <;> exact ⟨rfl, rfl⟩
  · intro ts v hts hp
    subst hts
    have hrw : asofToleranceOf (Option.getD (some ts) "") =
        (some (Scalar.int64 v), none) := by
      simp only [Option.getD_some]
      exact asofToleranceOf_int hp
    exact ⟨congrArg Prod.fst hrw, congrArg Prod.snd hrw⟩
  · intro ts hts h1 h2
    subst hts
    have hrw : asofToleranceOf (Option.getD (some ts) "") =
        (some Scalar.float64, none) := by
      simp only [Option.getD_some]
      exact asofToleranceOf_float h1 h2
    exact ⟨congrArg Prod.fst hrw, congrArg Prod.snd hrw⟩
  · intro ts hts hne h1 h2
    subst hts
    have hrw : asofToleranceOf (Option.getD (some ts) "") = (none, some ts) := by
      simp only [Option.getD_some]
      exact asofToleranceOf_duration hne h1 h2
    exact ⟨congrArg Prod.fst hrw, congrArg Prod.snd hrw⟩

/-- Witness for C5 at concrete strategy and tolerance strings. -/
theorem C5_witness :
    ∃ opts : AsOfOptions,
      pl_lazy_join_asof (LazyPlan.source 0) (LazyPlan.source 1)
          (Expr.col "t") (Expr.col "t") [] [] (some "nearest") (some "2h") =
        LazyPlan.join (LazyPlan.source 0) (LazyPlan.source 1)
          [Expr.col "t"] [Expr.col "t"] (JoinArgs.mk (JoinType.AsOf opts))
      ∧ opts.allow_eq = true
      ∧ opts.check_sortedness = true
      ∧ opts.strategy = AsofStrategy.Nearest
      ∧ opts.tolerance = none
      ∧ opts.tolerance_str = some "2h" := by
  obtain ⟨opts, heq, ha, hcs, hf, hn, hb, ht0, hti, htf, htd⟩ :=
    C5_asof_options (LazyPlan.source 0) (LazyPlan.source 1)
      (Expr.col "t") (Expr.col "t") [] [] (some "nearest") (some "2h")
  exact ⟨opts, heq, ha, hcs, hn rfl, (htd "2h" rfl (by decide) rfl rfl).1,
    (htd "2h" rfl (by decide) rfl rfl).2⟩

/-- Witness for C7 at a concrete selector and schema. -/
theorem C7_witness :
    pl_selector_not (Selector.ByName ["a"]) =
      Selector.Difference Selector.Wildcard (Selector.ByName ["a"])
    ∧ (("b", DataType.String) ∈
        resolveSelector (pl_selector_not (Selector.ByName ["a"]))
          [("a", DataType.Int64), ("b", DataType.String)] ↔
       ("b", DataType.String) ∈
          resolveSelector Selector.Wildcard
            [("a", DataType.Int64), ("b", DataType.String)]
        ∧ ("b", DataType.String) ∉
            resolveSelector (Selector.ByName ["a"])
              [("a", DataType.Int64), ("b", DataType.String)]) :=
  ⟨C7_selector_combinators.1 (Selector.ByName ["a"]),
   C7_selector_combinators.2.2.2.1 (Selector.ByName ["a"])
     [("a", DataType.Int64), ("b", DataType.String)] ("b", DataType.String)⟩

end PolarsNet
